import Mathlib

/-
Verification of the network-health watchdog `check_proxy_connectivity.py`.

The script issues HTTP GET requests and reacts to their outcomes; we embed
each function as a pure Lean function over an explicit "outcome" describing
what each request returned (a status code, a timeout, a connection error, or
another request exception).  Stateful aspects (which calls were made, which
sleeps were performed, the process exit code) are made explicit as traces.
-/

namespace ProxyCheck

/-- Outcome of a single HTTP GET issued by `requests.get`: either a response
with a status code, or one of the exception classes the script catches
(`requests.exceptions.Timeout`, `ConnectionError`, other `RequestException`). -/
inductive ReqOutcome
  | resp (status : Nat)
  | timeout
  | connError
  | otherExc
deriving DecidableEq, Repr

/-- A JSON value, as produced by `response.json()`.  Numbers are modelled as
integers (the sentinel comparison only involves the integer 1). -/
inductive JsonVal
  | null
  | bool (b : Bool)
  | int (n : Int)
  | str (s : String)
  | arr (elems : List JsonVal)
  | obj (fields : List (String × JsonVal))

/-- `isinstance(data, dict)`. -/
def JsonVal.isObj : JsonVal → Bool
  | .obj _ => true
  | _ => false

/-- Body of a 200 response from the status endpoint: either it parses as JSON
(`response.json()` succeeds) or it does not (`ValueError`). -/
inductive StatusBody
  | json (v : JsonVal)
  | notJson

/-- Outcome of the GET against the status endpoint. -/
inductive StatusOutcome
  | resp (status : Nat) (body : StatusBody)
  | timeout
  | connError
  | otherExc

/-- Association lookup on the JSON object, mirroring `field in data` /
`data[field]` on a Python dict (keys are unique in a dict; lookup returns the
first binding). -/
def lookupField : List (String × JsonVal) → String → Option JsonVal
  | [], _ => none
  | (k, v) :: rest, f => if k == f then some v else lookupField rest f

/-- `status_value in [True, 'running', 'active', 'enabled', 'up', 1]`,
with Python `==` semantics (`True == 1`, so `.bool b` matches iff `b`,
and an integer matches iff it equals 1). -/
def isActiveSentinel : JsonVal → Bool
  | .bool b => b
  | .str s => s == "running" || s == "active" || s == "enabled" || s == "up"
  | .int n => n == 1
  | _ => false

/-- The candidate field list scanned in order:
`['running', 'status', 'state', 'enabled', 'active', 'success']`. -/
def status_fields : List String :=
  ["running", "status", "state", "enabled", "active", "success"]

/-- The `for field in status_fields` loop: the first field present in the
object decides the result via the sentinel set; if none is present the loop
falls through and the function returns `True` (optimistic default). -/
def scanStatusFields : List String → List (String × JsonVal) → Bool
  | [], _ => true
  | f :: rest, d =>
    match lookupField d f with
    | some v => isActiveSentinel v
    | none => scanStatusFields rest d

/-- `check_google_connectivity`: true iff the GET returned status 200;
every caught exception and every non-200 status yields `False`. -/
def check_google_connectivity : ReqOutcome → Bool
  | .resp s => s == 200
  | _ => false

/-- `check_openclash_status`: interpret the status endpoint's reply. -/
def check_openclash_status : StatusOutcome → Bool
  | .resp s body =>
    if s == 200 then
      match body with
      | .json v =>
        match v with
        | .obj d => scanStatusFields status_fields d
        | _ => true
      | .notJson => true
    else false
  | .timeout => false
  | .connError => false
  | .otherExc => false

/-- `start_openclash`: one GET to the up endpoint; success iff status 200
(the 15-second settle sleep on success does not affect the result). -/
def start_openclash : ReqOutcome → Bool
  | .resp s => s == 200
  | _ => false

end ProxyCheck

namespace ProxyCheck

/-- `response.status_code == 200` for one attempt inside `execute_request`. -/
def attemptSucceeds : ReqOutcome → Bool
  | .resp s => s == 200
  | _ => false

/-- The sleep inserted before retrying after a failed attempt inside
`execute_request`: 3 s after a non-200 status, 3 s after a timeout,
5 s after a connection error, 3 s after any other request exception. -/
def retryWait : ReqOutcome → Nat
  | .timeout => 3
  | .connError => 5
  | _ => 3

/-- Result of one `execute_request` call: whether it returned `True`, how
many HTTP requests it issued, and the sleeps it performed between retries. -/
structure ExecTrace where
  success : Bool
  attempts : Nat
  waits : List Nat
deriving DecidableEq, Repr

/-- The `for attempt in range(1, max_retries + 1)` loop of `execute_request`.
`fuel` is the number of attempts still allowed and `a` the current attempt
index; a retry sleep happens only when `attempt < max_retries`. -/
def execLoop (env : Nat → ReqOutcome) (maxR : Nat) : Nat → Nat → ExecTrace
  | 0, _ => ⟨false, 0, []⟩
  | fuel + 1, a =>
    let o := env a
    if attemptSucceeds o then ⟨true, 1, []⟩
    else
      let rest := execLoop env maxR fuel (a + 1)
      if a < maxR then ⟨rest.success, rest.attempts + 1, retryWait o :: rest.waits⟩
      else ⟨rest.success, rest.attempts + 1, rest.waits⟩

/-- `execute_request(url, name, max_retries)`: `env i` is the outcome of the
i-th request (attempts are numbered from 1). -/
def execute_request (env : Nat → ReqOutcome) (max_retries : Nat) : ExecTrace :=
  execLoop env max_retries max_retries 1

/-- The three `execute_request` call sites inside `restart_openclash`,
identified by their `operation_name` argument. -/
inductive OpName
  | stopOp
  | startOp
  | restartStartOp
deriving DecidableEq, Repr

/-- One top-level step of `restart_openclash`: an `execute_request`
sub-operation (with its retry bound and its trace) or a `time.sleep`. -/
inductive RestartStep
  | exec (op : OpName) (maxRetries : Nat) (t : ExecTrace)
  | sleep (secs : Nat)
deriving DecidableEq, Repr

/-- Whether a restart step is a start request sub-operation (first start or
the fallback start). -/
def RestartStep.isStartExec : RestartStep → Bool
  | .exec .startOp _ _ => true
  | .exec .restartStartOp _ _ => true
  | _ => false

/-- Environment for one `restart_openclash` run: outcome streams for the
down sub-operation, the first up sub-operation and the fallback up
sub-operation. -/
structure RestartEnv where
  stopReqs : Nat → ReqOutcome
  startReqs : Nat → ReqOutcome
  fallbackReqs : Nat → ReqOutcome

/-- `restart_openclash`: stop (3 retries); on failure abort with `False`.
On success sleep 5, start (3 retries); on failure sleep 3 and run the
fallback start (2 retries); if that fails too return `False`.  On any
successful start sleep 10 and return `True`.  Returns the result together
with the sequence of steps performed. -/
def restart_openclash (e : RestartEnv) : Bool × List RestartStep :=
  let stopT := execute_request e.stopReqs 3
  if stopT.success = false then
    (false, [.exec .stopOp 3 stopT])
  else
    let startT := execute_request e.startReqs 3
    if startT.success then
      (true, [.exec .stopOp 3 stopT, .sleep 5, .exec .startOp 3 startT, .sleep 10])
    else
      let fbT := execute_request e.fallbackReqs 2
      if fbT.success then
        (true, [.exec .stopOp 3 stopT, .sleep 5, .exec .startOp 3 startT,
                .sleep 3, .exec .restartStartOp 2 fbT, .sleep 10])
      else
        (false, [.exec .stopOp 3 stopT, .sleep 5, .exec .startOp 3 startT,
                 .sleep 3, .exec .restartStartOp 2 fbT])

/-- One externally visible call made by `main`, with its boolean result. -/
inductive CallEvent
  | google (ok : Bool)
  | statusCheck (running : Bool)
  | startSvc (ok : Bool)
  | restartSvc (ok : Bool)
deriving DecidableEq, Repr

/-- Environment for one `main` run: the outcome of the i-th Google probe,
the i-th status request, the single start request, and the restart streams. -/
structure World where
  googleReqs : Nat → ReqOutcome
  statusReqs : Nat → StatusOutcome
  startReq : ReqOutcome
  restartReqs : RestartEnv

def MAX_RETRIES : Nat := 3

/-- The initial `for attempt in range(1, MAX_RETRIES + 1)` probe loop of
`main`: returns whether some probe succeeded and the probe events in order.
`fuel` is the number of attempts left, `a` the current probe index. -/
def probeLoop (g : Nat → ReqOutcome) : Nat → Nat → Bool × List CallEvent
  | 0, _ => (false, [])
  | fuel + 1, a =>
    if check_google_connectivity (g a) then (true, [.google true])
    else
      let rest := probeLoop g fuel (a + 1)
      (rest.1, .google false :: rest.2)

/-- Result of one `main` run: the argument of the explicit `sys.exit` call if
one is reached (`none` when the procedure falls off the end), and the calls
made, in order. -/
structure MainResult where
  exitCode : Option Nat
  calls : List CallEvent
deriving DecidableEq, Repr

/-- `main`: probe Google up to `MAX_RETRIES` times (exit 0 on success); then
one status check; if not running, start and re-probe once (exit 0 on
success); if running, restart and re-probe once (exit 0 on success), with a
final diagnostic status check when the re-probe still fails.  Every failure
path falls through to the final log with no explicit exit code. -/
def main (w : World) : MainResult :=
  let p := probeLoop w.googleReqs MAX_RETRIES 1
  if p.1 then ⟨some 0, p.2⟩
  else
    let nextProbe := p.2.length + 1
    let running := check_openclash_status (w.statusReqs 1)
    if running = false then
      let st := start_openclash w.startReq
      if st then
        let ok := check_google_connectivity (w.googleReqs nextProbe)
        if ok then ⟨some 0, p.2 ++ [.statusCheck running, .startSvc st, .google ok]⟩
        else ⟨none, p.2 ++ [.statusCheck running, .startSvc st, .google ok]⟩
      else ⟨none, p.2 ++ [.statusCheck running, .startSvc st]⟩
    else
      let rs := restart_openclash w.restartReqs
      if rs.1 then
        let ok := check_google_connectivity (w.googleReqs nextProbe)
        if ok then ⟨some 0, p.2 ++ [.statusCheck running, .restartSvc rs.1, .google ok]⟩
        else
          let fin := check_openclash_status (w.statusReqs 2)
          ⟨none, p.2 ++ [.statusCheck running, .restartSvc rs.1, .google ok, .statusCheck fin]⟩
      else ⟨none, p.2 ++ [.statusCheck running, .restartSvc rs.1]⟩

/-! ## Concrete environments used by the witnesses -/

/-- A status dict `{"status": "up", "state": 0}` with two recognized fields. -/
def statusDictEx : List (String × JsonVal) :=
  [("status", JsonVal.str "up"), ("state", JsonVal.int 0)]

/-- Environment whose requests all return HTTP 500. -/
def envFailW : Nat → ReqOutcome := fun _ => ReqOutcome.resp 500

/-- Environment whose requests all return HTTP 200. -/
def envOkW : Nat → ReqOutcome := fun _ => ReqOutcome.resp 200

/-- Environment that times out on every attempt before succeeding at the
second one. -/
def envOk2W : Nat → ReqOutcome :=
  fun i => if i = 2 then ReqOutcome.resp 200 else ReqOutcome.timeout

/-- Environment where attempt 1 times out, attempt 2 hits a connection
error, and every later attempt gets HTTP 404. -/
def env4W : Nat → ReqOutcome :=
  fun i => if i = 1 then ReqOutcome.timeout
    else if i = 2 then ReqOutcome.connError
    else ReqOutcome.resp 404

/-- Restart environment whose stop sub-operation always fails. -/
def reStopFailW : RestartEnv := ⟨envFailW, envOkW, envOkW⟩

/-- Restart environment where every sub-operation succeeds immediately. -/
def reHappyW : RestartEnv := ⟨envOkW, envOkW, envOkW⟩

/-- Restart environment where the first start fails and the fallback
succeeds. -/
def reFallbackW : RestartEnv := ⟨envOkW, envFailW, envOkW⟩

/-- Restart environment where both starts fail. -/
def reAllFailW : RestartEnv := ⟨envOkW, envFailW, envFailW⟩

/-- World where Google is reachable at once. -/
def wFirstOkW : World :=
  ⟨envOkW, fun _ => StatusOutcome.timeout, ReqOutcome.resp 200, reHappyW⟩

/-- World where Google is unreachable until the fourth probe, the status
endpoint refuses connections, and the start request succeeds. -/
def wStartPathW : World :=
  ⟨fun i => if i = 4 then ReqOutcome.resp 200 else ReqOutcome.timeout,
   fun _ => StatusOutcome.connError, ReqOutcome.resp 200, reHappyW⟩

/-- World where Google is reachable at once (exit-code witness). -/
def wExitW : World :=
  ⟨envOkW, fun _ => StatusOutcome.timeout, ReqOutcome.resp 200, reHappyW⟩

/-! ## Helper lemmas -/

/-- The field scan returns the sentinel interpretation of the value of the
first listed field present in the object. -/
lemma scanStatusFields_eq_of_find (fs : List String) (d : List (String × JsonVal))
    (f : String) (v : JsonVal)
    (hfind : fs.find? (fun g => (lookupField d g).isSome) = some f)
    (hv : lookupField d f = some v) :
    scanStatusFields fs d = isActiveSentinel v := by
  induction fs with
  | nil => simp at hfind
  | cons hd tl ih =>
    by_cases hp : (lookupField d hd).isSome
    · rw [List.find?_cons_of_pos _ (by simpa using hp)] at hfind
      obtain rfl : hd = f := by simpa using hfind
      rw [scanStatusFields, hv]
    · rw [List.find?_cons_of_neg _ (by simpa using hp)] at hfind
      have hnone : lookupField d hd = none := by
        cases hcase : lookupField d hd with
        | none => rfl
        | some w => exact absurd (by simp [hcase]) hp
      rw [scanStatusFields, hnone]
      exact ih hfind

/-- With every attempt failing, `execLoop` exhausts its fuel. -/
lemma execLoop_all_fail (env : Nat → ReqOutcome) (maxR : Nat)
    (hf : ∀ i, attemptSucceeds (env i) = false) :
    ∀ fuel a, (execLoop env maxR fuel a).success = false
      ∧ (execLoop env maxR fuel a).attempts = fuel := by
  intro fuel
  induction fuel with
  | zero => intro a; simp [execLoop]
  | succ n ih =>
    intro a
    have h1 := (ih (a + 1)).1
    have h2 := (ih (a + 1)).2
    rw [execLoop]
    simp only [hf a, Bool.false_eq_true, if_false]
    split <;>
      exact ⟨h1, by show (execLoop env maxR n (a + 1)).attempts + 1 = n + 1; omega⟩

/-- If the first success is at attempt `k`, `execLoop` stops right there. -/
lemma execLoop_first_success (env : Nat → ReqOutcome) (maxR k : Nat)
    (hk : attemptSucceeds (env k) = true)
    (hfail : ∀ i, i < k → attemptSucceeds (env i) = false) :
    ∀ fuel a, a ≤ k → k < a + fuel →
      (execLoop env maxR fuel a).success = true
      ∧ (execLoop env maxR fuel a).attempts = k - a + 1 := by
  intro fuel
  induction fuel with
  | zero => intro a h1 h2; omega
  | succ n ih =>
    intro a h1 h2
    by_cases hak : a = k
    · subst hak
      rw [execLoop]
      simp [hk]
    · have ha : a < k := lt_of_le_of_ne h1 hak
      have hrec := ih (a + 1) (by omega) (by omega)
      have hs := hrec.1
      have hatt := hrec.2
      rw [execLoop]
      simp only [hfail a ha, Bool.false_eq_true, if_false]
      split <;>
        exact ⟨hs, by show (execLoop env maxR n (a + 1)).attempts + 1 = k - a + 1; omega⟩

/-- With every attempt failing, the sleeps of `execLoop` are the retry waits
of all attempts except the last one. -/
lemma execLoop_waits_all_fail (env : Nat → ReqOutcome) (N : Nat)
    (hf : ∀ i, attemptSucceeds (env i) = false) :
    ∀ fuel a, a + fuel = N + 1 →
      (execLoop env N fuel a).waits
        = (List.range' a (fuel - 1)).map (fun i => retryWait (env i)) := by
  intro fuel
  induction fuel with
  | zero => intro a h; simp [execLoop]
  | succ n ih =>
    intro a h
    rw [execLoop]
    simp only [hf a]
    by_cases han : a < N
    · rw [if_pos han]
      have hn : ∃ m, n = m + 1 := ⟨n - 1, by omega⟩
      obtain ⟨m, rfl⟩ := hn
      rw [ih (a + 1) (by omega)]
      simp [List.range'_succ]
    · have : n = 0 := by omega
      subst this
      rw [if_neg han]
      simp [execLoop]

/-- A probe loop run contains a successful Google event iff it succeeded. -/
lemma probeLoop_google_true_mem (g : Nat → ReqOutcome) :
    ∀ fuel a, CallEvent.google true ∈ (probeLoop g fuel a).2
      ↔ (probeLoop g fuel a).1 = true := by
  intro fuel
  induction fuel with
  | zero => intro a; simp [probeLoop]
  | succ n ih =>
    intro a
    rw [probeLoop]
    by_cases h : check_google_connectivity (g a) <;> simp [h, ih (a + 1)]

/-! ## Claims -/

/-- C1: on an HTTP-200 JSON-object response, the checker scans the candidate
fields in the order `running, status, state, enabled, active, success`; the
first field present determines the result alone, mapped through the
active-sentinel set {true, "running", "active", "enabled", "up", 1}. -/
theorem status_field_priority (d : List (String × JsonVal)) (f : String) (v : JsonVal)
    (hfind : status_fields.find? (fun g => (lookupField d g).isSome) = some f)
    (hv : lookupField d f = some v) :
    check_openclash_status (StatusOutcome.resp 200 (StatusBody.json (JsonVal.obj d)))
      = isActiveSentinel v
    ∧ (isActiveSentinel v = true ↔
        (v = JsonVal.bool true ∨ v = JsonVal.str "running" ∨ v = JsonVal.str "active"
          ∨ v = JsonVal.str "enabled" ∨ v = JsonVal.str "up" ∨ v = JsonVal.int 1)) := by
  constructor
  · have : check_openclash_status (StatusOutcome.resp 200 (StatusBody.json (JsonVal.obj d)))
        = scanStatusFields status_fields d := rfl
    rw [this]
    exact scanStatusFields_eq_of_find status_fields d f v hfind hv
  · cases v <;> simp [isActiveSentinel, or_assoc]

/-- C1 witness: in `{"status": "up", "state": 0}` the first listed field
present is `status`, and the checker returns its sentinel interpretation. -/
theorem status_field_priority_witness :
    check_openclash_status (StatusOutcome.resp 200 (StatusBody.json (JsonVal.obj statusDictEx)))
      = isActiveSentinel (JsonVal.str "up")
    ∧ (isActiveSentinel (JsonVal.str "up") = true ↔
        (JsonVal.str "up" = JsonVal.bool true ∨ JsonVal.str "up" = JsonVal.str "running"
          ∨ JsonVal.str "up" = JsonVal.str "active" ∨ JsonVal.str "up" = JsonVal.str "enabled"
          ∨ JsonVal.str "up" = JsonVal.str "up" ∨ JsonVal.str "up" = JsonVal.int 1)) :=
  status_field_priority statusDictEx "status" (JsonVal.str "up") rfl rfl

/-- C5: the reachability probe returns true exactly on a status-200 response;
every non-200 status, timeout and network exception maps to `false`, and the
probe is a total boolean function (no exception escapes). -/
theorem google_probe_iff_200 (o : ReqOutcome) :
    check_google_connectivity o = true ↔ o = ReqOutcome.resp 200 := by
  cases o <;> simp [check_google_connectivity]

/-- C8: concrete status payloads: `{"running": true}` is running;
`{"state": "stopped"}` is not; `{"foo": "bar"}` (no recognized field) is
running by optimistic default; a 200 non-JSON body is also running. -/
theorem status_checker_examples :
    check_openclash_status
      (StatusOutcome.resp 200 (StatusBody.json (JsonVal.obj [("running", JsonVal.bool true)])))
      = true
    ∧ check_openclash_status
        (StatusOutcome.resp 200 (StatusBody.json (JsonVal.obj [("state", JsonVal.str "stopped")])))
        = false
    ∧ check_openclash_status
        (StatusOutcome.resp 200 (StatusBody.json (JsonVal.obj [("foo", JsonVal.str "bar")])))
        = true
    ∧ check_openclash_status (StatusOutcome.resp 200 StatusBody.notJson) = true :=
  ⟨rfl, rfl, rfl, rfl⟩

/-- C10: a 200 response whose body is JSON but not an object is reported as
running, without consulting any field. -/
theorem status_nonobject_json (v : JsonVal) (h : v.isObj = false) :
    check_openclash_status (StatusOutcome.resp 200 (StatusBody.json v)) = true := by
  cases v <;> first
    | rfl
    | exact absurd h (by simp [JsonVal.isObj])

/-- C10 witness: the JSON array `[]` is not an object and yields `true`. -/
theorem status_nonobject_json_witness :
    (JsonVal.arr []).isObj = false
    ∧ check_openclash_status (StatusOutcome.resp 200 (StatusBody.json (JsonVal.arr []))) = true :=
  ⟨rfl, status_nonobject_json (JsonVal.arr []) rfl⟩

/-- C3: with a retry bound `N ≥ 1`, a sub-operation whose requests always
fail performs exactly `N` attempts and returns failure; and it returns
success as soon as some attempt gets a 200, at exactly that attempt count. -/
theorem execute_request_attempt_counts (env : Nat → ReqOutcome) (N : Nat) (hN : 1 ≤ N) :
    ((∀ i, attemptSucceeds (env i) = false) →
      (execute_request env N).success = false ∧ (execute_request env N).attempts = N)
    ∧ (∀ k, 1 ≤ k → k ≤ N →
        (∀ i, i < k → attemptSucceeds (env i) = false) →
        attemptSucceeds (env k) = true →
        (execute_request env N).success = true ∧ (execute_request env N).attempts = k) := by
  constructor
  · intro hf
    exact execLoop_all_fail env N hf N 1
  · intro k hk1 hkN hfail hk
    have h := execLoop_first_success env N k hk hfail N 1 hk1 (by omega)
    have h2 := h.2
    refine ⟨h.1, ?_⟩
    rw [execute_request]
    omega

/-- C3 witness: with bound 3 an always-failing sub-operation makes 3
attempts; one that succeeds at attempt 2 stops after 2 attempts. -/
theorem execute_request_attempt_counts_witness :
    ((execute_request envFailW 3).success = false ∧ (execute_request envFailW 3).attempts = 3)
    ∧ ((execute_request envOk2W 3).success = true ∧ (execute_request envOk2W 3).attempts = 2) :=
  ⟨(execute_request_attempt_counts envFailW 3 (by decide)).1 (fun _ => rfl),
   (execute_request_attempt_counts envOk2W 3 (by decide)).2 2 (by decide) (by decide)
      (fun i hi => by
        have hne : i ≠ 2 := by omega
        simp [envOk2W, hne, attemptSucceeds])
      (by decide)⟩

/-- C4: with all attempts failing, the sub-operation sleeps between
consecutive attempts according to the failure kind of the preceding attempt
(3 s after a timeout, 5 s after a connection error, 3 s after anything
else, non-200 included), performs no sleep after the final attempt, and
returns failure. -/
theorem execute_request_backoff_schedule (env : Nat → ReqOutcome) (N : Nat) (hN : 1 ≤ N)
    (hf : ∀ i, attemptSucceeds (env i) = false) :
    (execute_request env N).success = false
    ∧ (execute_request env N).waits
        = (List.range' 1 (N - 1)).map (fun i =>
            match env i with
            | ReqOutcome.timeout => 3
            | ReqOutcome.connError => 5
            | _ => 3) := by
  refine ⟨(execLoop_all_fail env N hf N 1).1, ?_⟩
  have h := execLoop_waits_all_fail env N hf N 1 (by omega)
  rw [execute_request, h]
  apply List.map_congr_left
  intro i _
  cases henv : env i <;> simp [retryWait]

/-- C4 witness: with bound 4 and the failure kinds timeout, connection
error, 404, the sleeps are [3, 5, 3] and the sub-operation fails. -/
theorem execute_request_backoff_schedule_witness :
    (execute_request env4W 4).success = false
    ∧ (execute_request env4W 4).waits
        = (List.range' 1 3).map (fun i =>
            match env4W i with
            | ReqOutcome.timeout => 3
            | ReqOutcome.connError => 5
            | _ => 3) :=
  execute_request_backoff_schedule env4W 4 (by decide)
    (fun i => by
      by_cases h1 : i = 1 <;> by_cases h2 : i = 2 <;>
        simp [env4W, h1, h2, attemptSucceeds])

/-- C2: the restart sequence: a failed stop aborts with no start request at
all; a successful stop is followed by a 5 s wait and a start bounded to 3
attempts; a failed start is followed by a 3 s wait and one fallback start
bounded to 2 attempts; failure of the fallback aborts with failure; a
successful start (first or fallback) is followed by a 10 s wait and overall
success. -/
theorem restart_sequence_cases :
    (∀ e : RestartEnv, (execute_request e.stopReqs 3).success = false →
      (restart_openclash e).1 = false
      ∧ ∀ s ∈ (restart_openclash e).2, s.isStartExec = false)
    ∧ (∀ e : RestartEnv, (execute_request e.stopReqs 3).success = true →
      (execute_request e.startReqs 3).success = true →
      restart_openclash e
        = (true, [RestartStep.exec OpName.stopOp 3 (execute_request e.stopReqs 3),
                  RestartStep.sleep 5,
                  RestartStep.exec OpName.startOp 3 (execute_request e.startReqs 3),
                  RestartStep.sleep 10]))
    ∧ (∀ e : RestartEnv, (execute_request e.stopReqs 3).success = true →
      (execute_request e.startReqs 3).success = false →
      (execute_request e.fallbackReqs 2).success = true →
      restart_openclash e
        = (true, [RestartStep.exec OpName.stopOp 3 (execute_request e.stopReqs 3),
                  RestartStep.sleep 5,
                  RestartStep.exec OpName.startOp 3 (execute_request e.startReqs 3),
                  RestartStep.sleep 3,
                  RestartStep.exec OpName.restartStartOp 2 (execute_request e.fallbackReqs 2),
                  RestartStep.sleep 10]))
    ∧ (∀ e : RestartEnv, (execute_request e.stopReqs 3).success = true →
      (execute_request e.startReqs 3).success = false →
      (execute_request e.fallbackReqs 2).success = false →
      (restart_openclash e).1 = false) := by
  refine ⟨?_, ?_, ?_, ?_⟩
  · intro e h
    simp [restart_openclash, h, RestartStep.isStartExec]
  · intro e h1 h2
    simp [restart_openclash, h1, h2]
  · intro e h1 h2 h3
    simp [restart_openclash, h1, h2, h3]
  · intro e h1 h2 h3
    simp [restart_openclash, h1, h2, h3]

/-- C2 witness: the four restart cases at concrete environments. -/
theorem restart_sequence_cases_witness :
    ((restart_openclash reStopFailW).1 = false
      ∧ ∀ s ∈ (restart_openclash reStopFailW).2, s.isStartExec = false)
    ∧ restart_openclash reHappyW
        = (true, [RestartStep.exec OpName.stopOp 3 (execute_request reHappyW.stopReqs 3),
                  RestartStep.sleep 5,
                  RestartStep.exec OpName.startOp 3 (execute_request reHappyW.startReqs 3),
                  RestartStep.sleep 10])
    ∧ restart_openclash reFallbackW
        = (true, [RestartStep.exec OpName.stopOp 3 (execute_request reFallbackW.stopReqs 3),
                  RestartStep.sleep 5,
                  RestartStep.exec OpName.startOp 3 (execute_request reFallbackW.startReqs 3),
                  RestartStep.sleep 3,
                  RestartStep.exec OpName.restartStartOp 2 (execute_request reFallbackW.fallbackReqs 2),
                  RestartStep.sleep 10])
    ∧ (restart_openclash reAllFailW).1 = false :=
  ⟨restart_sequence_cases.1 reStopFailW (by decide),
   restart_sequence_cases.2.1 reHappyW (by decide) (by decide),
   restart_sequence_cases.2.2.1 reFallbackW (by decide) (by decide) (by decide),
   restart_sequence_cases.2.2.2 reAllFailW (by decide) (by decide) (by decide)⟩

/-- C6: when the first reachability probe succeeds, the run exits 0 after
exactly one probe call with no status, start or restart call. -/
theorem main_first_probe_success (w : World)
    (h : check_google_connectivity (w.googleReqs 1) = true) :
    main w = ⟨some 0, [CallEvent.google true]⟩ := by
  have hp : probeLoop w.googleReqs MAX_RETRIES 1 = (true, [CallEvent.google true]) := by
    simp [MAX_RETRIES, probeLoop, h]
  simp [main, hp]

/-- C6 witness: one successful probe, exit 0, no other calls. -/
theorem main_first_probe_success_witness :
    main wFirstOkW = ⟨some 0, [CallEvent.google true]⟩ :=
  main_first_probe_success wFirstOkW (by decide)

/-- C7: when all three initial probes fail, the status check reports
not-running, the start succeeds and the post-start probe succeeds, the run
makes exactly 3 probe calls, 1 status call, 1 start call and 1 more probe
call, exits 0, and never makes a restart call. -/
theorem main_start_path_trace (w : World)
    (h1 : check_google_connectivity (w.googleReqs 1) = false)
    (h2 : check_google_connectivity (w.googleReqs 2) = false)
    (h3 : check_google_connectivity (w.googleReqs 3) = false)
    (hs : check_openclash_status (w.statusReqs 1) = false)
    (hstart : start_openclash w.startReq = true)
    (h4 : check_google_connectivity (w.googleReqs 4) = true) :
    main w = ⟨some 0,
      [CallEvent.google false, CallEvent.google false, CallEvent.google false,
       CallEvent.statusCheck false, CallEvent.startSvc true, CallEvent.google true]⟩ := by
  have hp : probeLoop w.googleReqs MAX_RETRIES 1
      = (false, [CallEvent.google false, CallEvent.google false, CallEvent.google false]) := by
    simp [MAX_RETRIES, probeLoop, h1, h2, h3]
  simp [main, hp, hs, hstart, h4]

/-- C7 witness: the start-path trace at a concrete world. -/
theorem main_start_path_trace_witness :
    main wStartPathW = ⟨some 0,
      [CallEvent.google false, CallEvent.google false, CallEvent.google false,
       CallEvent.statusCheck false, CallEvent.startSvc true, CallEvent.google true]⟩ :=
  main_start_path_trace wStartPathW (by decide) (by decide) (by decide) (by decide)
    (by decide) (by decide)

/-- C9: an explicit exit code is set only with value 0, and exactly on the
runs where some reachability probe succeeded; every failure path ends with
no explicit exit code. -/
theorem main_exit_codes (w : World) :
    (∀ c, (main w).exitCode = some c → c = 0)
    ∧ ((main w).exitCode = some 0 ↔ CallEvent.google true ∈ (main w).calls) := by
  have hiff := probeLoop_google_true_mem w.googleReqs MAX_RETRIES 1
  simp only [main]
  split_ifs <;> simp_all [List.mem_append]

/-- C9 witness: at a concrete world that exits 0, the exit code is 0 and a
successful probe occurs in the trace. -/
theorem main_exit_codes_witness :
    (0 : Nat) = 0 ∧ CallEvent.google true ∈ (main wExitW).calls :=
  ⟨(main_exit_codes wExitW).1 0 (by decide), (main_exit_codes wExitW).2.mp (by decide)⟩

end ProxyCheck
